import Mathlib

/-!
Verification of the Actor CRD core (src/resources/crds/actor.rs):
the declarative Actor spec model (source locator, build-mode
classification, container/service port projections) and the Actor
status model (lifecycle condition constructors and queries).

Rust `Option<T>` is embedded as `Option`, `Vec<T>` as `List`,
`String`/`&str` as `String`, `i32`/`i64` as `Int` (no arithmetic is
performed on them, only copying), `HashMap<String, String>` as its
entry list. `Utc::now()` is a clock read; constructors that stamp a
timestamp take the instant as an explicit `now` argument.
-/

namespace Amphitheatre

/-- An opaque timestamp instant (`k8s_openapi ... Time`): its value is
never inspected by the code under verification, only stored. -/
structure Time where
  t : Int
deriving DecidableEq, Repr

/-- List of ports to expose from the container (struct `Port`). -/
structure Port where
  port : Int
  protocol : Option String
  expose : Option Bool
deriving DecidableEq, Repr

/-- Defines the behavior of a service (struct `Service`). -/
structure Service where
  kind : Option String
  ports : List Port
deriving DecidableEq, Repr

/-- Describes how images are built (struct `Build`). -/
structure Build where
  context : Option String
  env : Option (List (String × String))
  dockerfile : Option String
  builder : Option String
  buildpacks : Option (List String)
deriving DecidableEq, Repr

/-- A named external actor dependency (struct `Partner`). -/
structure Partner where
  name : String
  repository : String
  path : Option String
  reference : Option String
deriving DecidableEq, Repr

/-- The k8s `ContainerPort` value produced by the container-port
projection; fields not set by the code keep their `Default` (absent). -/
structure ContainerPort where
  container_port : Int
  host_ip : Option String
  host_port : Option Int
  name : Option String
  protocol : Option String
deriving DecidableEq, Repr

/-- The k8s `ServicePort` value produced by the service-port
projection; fields not set by the code keep their `Default` (absent). -/
structure ServicePort where
  app_protocol : Option String
  name : Option String
  node_port : Option Int
  port : Int
  protocol : Option String
  target_port : Option Int
deriving DecidableEq, Repr

/-- The k8s condition record (`meta::v1::Condition`). -/
structure Condition where
  type_ : String
  status : String
  reason : String
  message : String
  last_transition_time : Time
  observed_generation : Option Int
deriving DecidableEq, Repr

/-- The declarative description of one actor (struct `ActorSpec`). -/
structure ActorSpec where
  name : String
  description : String
  image : String
  command : Option String
  repository : String
  path : Option String
  reference : Option String
  commit : String
  environments : Option (List (String × String))
  partners : Option (List Partner)
  services : Option (List Service)
  sync : Option Bool
  build : Option Build
deriving DecidableEq, Repr

/-- The condition ledger (struct `ActorStatus`). -/
structure ActorStatus where
  conditions : List Condition
deriving DecidableEq, Repr

/-- The top-level resource: a spec plus an optional status. -/
structure Actor where
  spec : ActorSpec
  status : Option ActorStatus
deriving DecidableEq, Repr

/-- Modelled from the spec: the shared source-locator helper `url`
(imported in the source as `super::url`, living outside the provided
sources) per section 4.1 — if `reference` is absent the locator is
`repository` alone; if present it is appended as a ref suffix, and
`path`, when additionally present, is appended after the reference;
simple delimiter-joined concatenation. -/
def url (repository : String) (reference : Option String) (path : Option String) : String :=
  match reference with
  | none => repository
  | some reference =>
    match path with
    | none => repository ++ "#" ++ reference
    | some path => repository ++ "#" ++ reference ++ ":" ++ path

/-- `Actor::build_name`: `format!("{}-{}", self.spec.name, self.spec.commit)`. -/
def Actor.build_name (a : Actor) : String :=
  a.spec.name ++ "-" ++ a.spec.commit

/-- `Actor::docker_tag`: `format!("{}:{}", self.spec.image, self.spec.commit)`. -/
def Actor.docker_tag (a : Actor) : String :=
  a.spec.image ++ ":" ++ a.spec.commit

/-- `ActorSpec::url`: delegates to the shared `url` helper. -/
def ActorSpec.url (s : ActorSpec) : String :=
  Amphitheatre.url s.repository s.reference s.path

/-- `Partner::url`: delegates to the shared `url` helper. -/
def Partner.url (p : Partner) : String :=
  Amphitheatre.url p.repository p.reference p.path

/-- `ActorSpec::container_ports`: early-returns `None` when `services`
is absent, otherwise appends, service by service, every port mapped to
a `ContainerPort {container_port, protocol, ..Default}`. -/
def ActorSpec.container_ports (s : ActorSpec) : Option (List ContainerPort) :=
  match s.services with
  | none => none
  | some services =>
    some (services.foldl
      (fun ports service =>
        ports ++ service.ports.map (fun p =>
          { container_port := p.port, host_ip := none, host_port := none,
            name := none, protocol := p.protocol }))
      [])

/-- `ActorSpec::service_ports`: early-returns `None` when `services` is
absent, otherwise appends, service by service, the ports passing
`p.expose.unwrap_or_default()` mapped to a
`ServicePort {port, protocol, ..Default}`; returns `None` instead of an
empty list. -/
def ActorSpec.service_ports (s : ActorSpec) : Option (List ServicePort) :=
  match s.services with
  | none => none
  | some services =>
    let ports := services.foldl
      (fun ports service =>
        ports ++ (service.ports.filter (fun p => p.expose.getD false)).map (fun p =>
          { app_protocol := none, name := none, node_port := none,
            port := p.port, protocol := p.protocol, target_port := none }))
      []
    if ports.isEmpty then none else some ports

/-- `ActorSpec::has_dockerfile`:
`self.build.is_some() && self.build.as_ref().unwrap().dockerfile.is_some()`;
the short-circuiting `&&` guards the unwrap, so this is the match below. -/
def ActorSpec.has_dockerfile (s : ActorSpec) : Bool :=
  match s.build with
  | none => false
  | some build => build.dockerfile.isSome

/-- Word separators removed by the external `convert_case` crate's
default boundaries: underscore, hyphen, space. -/
def isWordSep (c : Char) : Bool :=
  c == '_' || c == '-' || c == ' '

/-- Models the external `convert_case` crate's default word boundaries
between a previous character `p` and the current character `c` (with
lookahead `next`): lower-to-upper, acronym end (upper-upper-lower),
and letter-digit transitions in both directions. -/
def isBoundary (p c : Char) (next : Option Char) : Bool :=
  (p.isLower && c.isUpper) ||
  (p.isUpper && c.isUpper && (match next with | some n => n.isLower | none => false)) ||
  (p.isDigit && (c.isUpper || c.isLower)) ||
  ((p.isLower || p.isUpper) && c.isDigit)

/-- Splits a character list into words at separators and case
boundaries; `cur` is the current word accumulated in reverse. -/
def splitWordsAux (cur : List Char) : List Char → List (List Char)
  | [] => [cur.reverse]
  | c :: rest =>
    if isWordSep c then cur.reverse :: splitWordsAux [] rest
    else
      match cur with
      | [] => splitWordsAux [c] rest
      | p :: _ =>
        if isBoundary p c rest.head? then cur.reverse :: splitWordsAux [c] rest
        else splitWordsAux (c :: cur) rest

/-- Capitalizes a word: first character uppercased, the rest lowercased. -/
def pascalWord : List Char → List Char
  | [] => []
  | c :: rest => c.toUpper :: rest.map Char.toLower

/-- Models the external `convert_case` crate's
`to_case(Case::Pascal)`: split into words, capitalize each, join. -/
def toCasePascal (s : String) : String :=
  String.mk ((((splitWordsAux [] s.data).filter (fun w => !w.isEmpty)).map pascalWord).flatten)

/-- The lifecycle phase enumeration (enum `ActorState`). -/
inductive ActorState where
  | Pending
  | Building
  | Running
  | Failed
deriving DecidableEq, Repr

/-- The `Display` impl for `ActorState`. -/
def ActorState.toString : ActorState → String
  | .Pending => "Pending"
  | .Building => "Building"
  | .Running => "Running"
  | .Failed => "Failed"

/-- `ActorState::create`: builds a fully-populated `Condition`; the
source stamps `last_transition_time` with `Utc::now()`, passed here as
the explicit argument `now`. -/
def ActorState.create (state : ActorState) (status : Bool)
    (reason : String) (message : Option String) (now : Time) : Condition :=
  { type_ := state.toString
    status := toCasePascal (ToString.toString status)
    last_transition_time := now
    reason := toCasePascal reason
    observed_generation := none
    message :=
      match message with
      | some message => message
      | none => "" }

/-- `ActorState::pending()` condition constructor. -/
def ActorState.pending (now : Time) : Condition :=
  ActorState.create .Pending true "Created" none now

/-- `ActorState::building()` condition constructor. -/
def ActorState.building (now : Time) : Condition :=
  ActorState.create .Building true "Build" none now

/-- `ActorState::running(status, reason, message)` condition constructor. -/
def ActorState.running (status : Bool) (reason : String)
    (message : Option String) (now : Time) : Condition :=
  ActorState.create .Running status reason message now

/-- `ActorState::failed(status, reason, message)` condition constructor. -/
def ActorState.failed (status : Bool) (reason : String)
    (message : Option String) (now : Time) : Condition :=
  ActorState.create .Failed status reason message now

/-- `ActorStatus::state`: whether some condition matches the phase name
and the canonicalized boolean status string. -/
def ActorStatus.state (st : ActorStatus) (s : ActorState) (status : Bool) : Bool :=
  st.conditions.any (fun condition =>
    condition.type_ == s.toString &&
    condition.status == toCasePascal (ToString.toString status))

/-- `ActorStatus::pending` query. -/
def ActorStatus.pending (st : ActorStatus) : Bool :=
  st.state .Pending true

/-- `ActorStatus::building` query. -/
def ActorStatus.building (st : ActorStatus) : Bool :=
  st.state .Building true

/-- `ActorStatus::running` query. -/
def ActorStatus.running (st : ActorStatus) : Bool :=
  st.state .Running true

/-- `ActorStatus::failed` query. -/
def ActorStatus.failed (st : ActorStatus) : Bool :=
  st.state .Failed true

/-- The `{port, protocol}` projection of one `Port` into a `ContainerPort`. -/
def containerPortOf (p : Port) : ContainerPort :=
  { container_port := p.port, host_ip := none, host_port := none,
    name := none, protocol := p.protocol }

/-- The `{port, protocol}` projection of one `Port` into a `ServicePort`. -/
def servicePortOf (p : Port) : ServicePort :=
  { app_protocol := none, name := none, node_port := none,
    port := p.port, protocol := p.protocol, target_port := none }

/-- The in-order flattening (services in list order, ports within each
service) of the exposed ports of a service list, projected to
`ServicePort`; `expose` defaults to false when absent. -/
def exposedFlatten (svcs : List Service) : List ServicePort :=
  (svcs.map (fun svc =>
    (svc.ports.filter (fun p => p.expose.getD false)).map servicePortOf)).flatten

/-- A concrete sample spec used to instantiate the theorems: one
service with one exposed port, a Dockerfile build, no reference. -/
def sampleSpec : ActorSpec :=
  { name := "amp", description := "demo", image := "registry/app",
    command := none, repository := "https://example.com/r.git",
    path := some "svc/.amp.toml", reference := none, commit := "abc123",
    environments := none, partners := none,
    services := some
      [{ kind := none,
         ports := [{ port := 8080, protocol := none, expose := some true }] }],
    sync := none,
    build := some
      { context := none, env := none, dockerfile := some "Dockerfile",
        builder := none, buildpacks := none } }

/-- A concrete sample spec whose `services` is present but empty. -/
def sampleSpecEmpty : ActorSpec :=
  { name := "amp", description := "demo", image := "registry/app",
    command := none, repository := "https://example.com/r.git",
    path := none, reference := none, commit := "abc123",
    environments := none, partners := none, services := some [],
    sync := none, build := none }

/-- A concrete sample partner agreeing with `sampleSpec` on the source
locator triple. -/
def samplePartner : Partner :=
  { name := "dep", repository := "https://example.com/r.git",
    path := some "svc/.amp.toml", reference := none }

/-- A concrete sample actor wrapping `sampleSpec`. -/
def sampleActor : Actor :=
  { spec := sampleSpec, status := none }

/-- Folding append of projected port lists over a service list equals
the flattening of the per-service projections. -/
theorem foldl_append_eq {α β : Type} (f : α → List β) (l : List α) (init : List β) :
    l.foldl (fun acc x => acc ++ f x) init = init ++ (l.map f).flatten := by
  induction l generalizing init with
  | nil => simp
  | cons x xs ih => simp [ih, List.append_assoc]

/-- C2: has_dockerfile() is true iff the build field is present and
that Build's dockerfile field is present; in particular it is false
when build is None and when build is Some with dockerfile = None. -/
theorem has_dockerfile_iff (s : ActorSpec) :
    (s.has_dockerfile = true ↔
      ∃ b d, s.build = some b ∧ b.dockerfile = some d) ∧
    (s.build = none → s.has_dockerfile = false) ∧
    (∀ b, s.build = some b → b.dockerfile = none → s.has_dockerfile = false) := by
  refine ⟨?_, ?_, ?_⟩
  · cases hb : s.build with
    | none => simp [ActorSpec.has_dockerfile, hb]
    | some b =>
      cases hd : b.dockerfile with
      | none => simp [ActorSpec.has_dockerfile, hb, hd]
      | some d => simp [ActorSpec.has_dockerfile, hb, hd]
  · intro hb; simp [ActorSpec.has_dockerfile, hb]
  · intro b hb hd; simp [ActorSpec.has_dockerfile, hb, hd]

/-- Witness for C2 at the sample spec, which has a Dockerfile build. -/
theorem has_dockerfile_iff_witness :
    ActorSpec.has_dockerfile sampleSpec = true :=
  (has_dockerfile_iff sampleSpec).1.mpr ⟨_, _, rfl, rfl⟩

/-- C7: when the reference is absent, both ActorSpec::url and
Partner::url return exactly the repository string, for every path. -/
theorem url_reference_absent (s : ActorSpec) (p : Partner)
    (hs : s.reference = none) (hp : p.reference = none) :
    ActorSpec.url s = s.repository ∧ Partner.url p = p.repository := by
  constructor
  · simp [ActorSpec.url, Amphitheatre.url, hs]
  · simp [Partner.url, Amphitheatre.url, hp]

/-- Witness for C7 at the sample spec and sample partner. -/
theorem url_reference_absent_witness :
    ActorSpec.url sampleSpec = "https://example.com/r.git" ∧
    Partner.url samplePartner = "https://example.com/r.git" :=
  url_reference_absent sampleSpec samplePartner rfl rfl

/-- C8: ActorSpec and Partner derive the source locator identically:
equal (repository, reference, path) fields give equal url() results. -/
theorem spec_partner_url_eq (s : ActorSpec) (p : Partner)
    (h1 : s.repository = p.repository) (h2 : s.reference = p.reference)
    (h3 : s.path = p.path) :
    ActorSpec.url s = Partner.url p := by
  simp [ActorSpec.url, Partner.url, h1, h2, h3]

/-- Witness for C8 at the sample spec and sample partner. -/
theorem spec_partner_url_eq_witness :
    ActorSpec.url sampleSpec = Partner.url samplePartner :=
  spec_partner_url_eq sampleSpec samplePartner rfl rfl rfl

/-- C10: build_name() concatenates spec.name, a hyphen, and
spec.commit; docker_tag() concatenates spec.image, a colon, and
spec.commit. -/
theorem build_name_docker_tag (a : Actor) :
    (Actor.build_name a).data = a.spec.name.data ++ '-' :: a.spec.commit.data ∧
    (Actor.docker_tag a).data = a.spec.image.data ++ ':' :: a.spec.commit.data := by
  constructor
  · show (a.spec.name ++ "-" ++ a.spec.commit).data = _
    simp [String.data_append, List.append_assoc]
  · show (a.spec.image ++ ":" ++ a.spec.commit).data = _
    simp [String.data_append, List.append_assoc]

/-- The service_ports fold equals the exposed-port flattening. -/
theorem service_ports_eq (s : ActorSpec) :
    s.service_ports =
      match s.services with
      | none => none
      | some svcs =>
        if (exposedFlatten svcs).isEmpty then none
        else some (exposedFlatten svcs) := by
  cases h : s.services with
  | none => simp [ActorSpec.service_ports, h]
  | some svcs =>
    simp only [ActorSpec.service_ports, h]
    rw [foldl_append_eq]
    rfl

/-- The container_ports fold equals the all-port flattening. -/
theorem container_ports_eq (s : ActorSpec) :
    s.container_ports = s.services.map (fun svcs =>
      (svcs.map (fun svc => svc.ports.map containerPortOf)).flatten) := by
  cases h : s.services with
  | none => simp [ActorSpec.container_ports, h]
  | some svcs =>
    simp only [ActorSpec.container_ports, h, Option.map_some]
    rw [foldl_append_eq]
    rfl

/-- C3: with services present, container_ports() is the in-order
flattening of every port of every service regardless of expose,
projected to (port, protocol), so its length is the sum of the
port-list lengths; with services absent the result is absent. -/
theorem container_ports_correct (s : ActorSpec) :
    (s.container_ports = s.services.map (fun svcs =>
      (svcs.map (fun svc => svc.ports.map containerPortOf)).flatten)) ∧
    (∀ svcs, s.services = some svcs →
      ∃ l, s.container_ports = some l ∧
        l.length = (svcs.map (fun svc => svc.ports.length)).sum) := by
  refine ⟨container_ports_eq s, ?_⟩
  intro svcs hs
  refine ⟨_, by rw [container_ports_eq, hs]; rfl, ?_⟩
  simp [List.length_flatten, Function.comp_def]

/-- Witness for C3 at the sample spec: one service, one port. -/
theorem container_ports_correct_witness :
    ∃ l, ActorSpec.container_ports sampleSpec = some l ∧ l.length = 1 := by
  obtain ⟨l, hl, hlen⟩ :=
    (container_ports_correct sampleSpec).2
      [{ kind := none,
         ports := [{ port := 8080, protocol := none, expose := some true }] }] rfl
  exact ⟨l, hl, hlen.trans (by decide)⟩

/-- When no port of any service has expose = some true, the exposed
flattening is empty. -/
theorem exposedFlatten_eq_nil_of_unexposed (svcs : List Service)
    (hnone : ∀ svc ∈ svcs, ∀ p ∈ svc.ports, p.expose ≠ some true) :
    exposedFlatten svcs = [] := by
  unfold exposedFlatten
  rw [List.flatten_eq_nil_iff]
  intro ws hws
  rw [List.mem_map] at hws
  obtain ⟨svc, hsvc, rfl⟩ := hws
  rw [List.map_eq_nil_iff, List.filter_eq_nil_iff]
  intro p hp
  have := hnone svc hsvc p hp
  cases hpe : p.expose with
  | none => simp [hpe]
  | some b =>
    cases b with
    | true => exact absurd hpe this
    | false => simp [hpe]

/-- When no port of any service has expose = some true, service_ports
is absent. -/
theorem service_ports_none_of_unexposed (s : ActorSpec) (svcs : List Service)
    (hs : s.services = some svcs)
    (hnone : ∀ svc ∈ svcs, ∀ p ∈ svc.ports, p.expose ≠ some true) :
    s.service_ports = none := by
  rw [service_ports_eq, hs]
  simp [exposedFlatten_eq_nil_of_unexposed svcs hnone]

/-- C1: service_ports() keeps exactly the ports with expose == true
(expose defaults to false when absent), flattened in order and
projected to (port, protocol); the result is absent both when services
is absent and when no port of any service is exposed. -/
theorem service_ports_correct (s : ActorSpec) :
    (s.services = none → s.service_ports = none) ∧
    (∀ svcs, s.services = some svcs → exposedFlatten svcs = [] →
      s.service_ports = none) ∧
    (∀ svcs, s.services = some svcs → exposedFlatten svcs ≠ [] →
      s.service_ports = some (exposedFlatten svcs)) ∧
    (∀ svcs, s.services = some svcs →
      (∀ svc ∈ svcs, ∀ p ∈ svc.ports, p.expose ≠ some true) →
      s.service_ports = none) := by
  refine ⟨?_, ?_, ?_, ?_⟩
  · intro h; rw [service_ports_eq, h]
  · intro svcs hs hempty
    rw [service_ports_eq, hs]
    show (if (exposedFlatten svcs).isEmpty then none
          else some (exposedFlatten svcs)) = none
    exact if_pos (List.isEmpty_iff.mpr hempty)
  · intro svcs hs hne
    rw [service_ports_eq, hs]
    show (if (exposedFlatten svcs).isEmpty then none
          else some (exposedFlatten svcs)) = some (exposedFlatten svcs)
    exact if_neg (fun hemp => hne (List.isEmpty_iff.mp hemp))
  · exact fun svcs hs hnone => service_ports_none_of_unexposed s svcs hs hnone

/-- Witness for C1 at the sample spec: the single exposed port 8080
survives the projection. -/
theorem service_ports_correct_witness :
    ActorSpec.service_ports sampleSpec =
      some [{ app_protocol := none, name := none, node_port := none,
              port := 8080, protocol := none, target_port := none }] :=
  ((service_ports_correct sampleSpec).2.2.1
      [{ kind := none,
         ports := [{ port := 8080, protocol := none, expose := some true }] }]
      rfl (by decide)).trans (by decide)

/-- C9: when services is present but contributes no ports,
container_ports() is a present empty list while service_ports() is
absent. -/
theorem port_projection_asymmetry (s : ActorSpec) (svcs : List Service)
    (hs : s.services = some svcs) (hp : ∀ svc ∈ svcs, svc.ports = []) :
    s.container_ports = some [] ∧ s.service_ports = none := by
  constructor
  · rw [container_ports_eq, hs]
    have hflat : (svcs.map (fun svc => svc.ports.map containerPortOf)).flatten = [] := by
      rw [List.flatten_eq_nil_iff]
      intro ws hws
      rw [List.mem_map] at hws
      obtain ⟨svc, hsvc, rfl⟩ := hws
      rw [hp svc hsvc]
      rfl
    simp [hflat]
  · refine service_ports_none_of_unexposed s svcs hs ?_
    intro svc hsvc p hp2
    rw [hp svc hsvc] at hp2
    cases hp2

/-- Witness for C9 at the sample spec with an empty service list. -/
theorem port_projection_asymmetry_witness :
    ActorSpec.container_ports sampleSpecEmpty = some [] ∧
    ActorSpec.service_ports sampleSpecEmpty = none :=
  port_projection_asymmetry sampleSpecEmpty [] rfl (by simp)

/-- The Pascal canonicalization of the boolean string "true". -/
theorem pascal_true : toCasePascal (ToString.toString true) = "True" := by decide

/-- The Pascal canonicalization of the boolean string "false". -/
theorem pascal_false : toCasePascal (ToString.toString false) = "False" := by decide

/-- The Pascal canonicalization of the reason "Created" is itself. -/
theorem pascal_created : toCasePascal "Created" = "Created" := by decide

/-- The Pascal canonicalization of the reason "Build" is itself. -/
theorem pascal_build : toCasePascal "Build" = "Build" := by decide

/-- Characterization of `ActorStatus::state` as an existential over the
condition list. -/
theorem state_iff (st : ActorStatus) (s : ActorState) (b : Bool) :
    st.state s b = true ↔
      ∃ c ∈ st.conditions, c.type_ = s.toString ∧
        c.status = toCasePascal (ToString.toString b) := by
  simp [ActorStatus.state, List.any_eq_true, Bool.and_eq_true, beq_iff_eq]

/-- C4: each lifecycle query holds iff some condition has the matching
phase name as type and status "True"; each is false on an empty
condition list, true right after appending the corresponding
constructed condition with status true, and running() is false when
the only Running condition was built via running(false, ...). -/
theorem lifecycle_queries_correct (st : ActorStatus) :
    (st.pending = true ↔
      ∃ c ∈ st.conditions, c.type_ = "Pending" ∧ c.status = "True") ∧
    (st.building = true ↔
      ∃ c ∈ st.conditions, c.type_ = "Building" ∧ c.status = "True") ∧
    (st.running = true ↔
      ∃ c ∈ st.conditions, c.type_ = "Running" ∧ c.status = "True") ∧
    (st.failed = true ↔
      ∃ c ∈ st.conditions, c.type_ = "Failed" ∧ c.status = "True") ∧
    (ActorStatus.pending ⟨[]⟩ = false ∧ ActorStatus.building ⟨[]⟩ = false ∧
      ActorStatus.running ⟨[]⟩ = false ∧ ActorStatus.failed ⟨[]⟩ = false) ∧
    (∀ now, ActorStatus.pending ⟨st.conditions ++ [ActorState.pending now]⟩ = true) ∧
    (∀ now, ActorStatus.building ⟨st.conditions ++ [ActorState.building now]⟩ = true) ∧
    (∀ r m now,
      ActorStatus.running ⟨st.conditions ++ [ActorState.running true r m now]⟩ = true) ∧
    (∀ r m now,
      ActorStatus.failed ⟨st.conditions ++ [ActorState.failed true r m now]⟩ = true) ∧
    (∀ r m now, ActorStatus.running ⟨[ActorState.running false r m now]⟩ = false) := by
  refine ⟨?_, ?_, ?_, ?_, ⟨rfl, rfl, rfl, rfl⟩, ?_, ?_, ?_, ?_, ?_⟩
  · exact (state_iff st .Pending true).trans
      (by simp [pascal_true, ActorState.toString])
  · exact (state_iff st .Building true).trans
      (by simp [pascal_true, ActorState.toString])
  · exact (state_iff st .Running true).trans
      (by simp [pascal_true, ActorState.toString])
  · exact (state_iff st .Failed true).trans
      (by simp [pascal_true, ActorState.toString])
  · intro now
    exact (state_iff ⟨st.conditions ++ [ActorState.pending now]⟩ .Pending true).mpr
      ⟨ActorState.pending now, by simp, rfl, rfl⟩
  · intro now
    exact (state_iff ⟨st.conditions ++ [ActorState.building now]⟩ .Building true).mpr
      ⟨ActorState.building now, by simp, rfl, rfl⟩
  · intro r m now
    exact (state_iff ⟨st.conditions ++ [ActorState.running true r m now]⟩ .Running true).mpr
      ⟨ActorState.running true r m now, by simp, rfl, rfl⟩
  · intro r m now
    exact (state_iff ⟨st.conditions ++ [ActorState.failed true r m now]⟩ .Failed true).mpr
      ⟨ActorState.failed true r m now, by simp, rfl, rfl⟩
  · intro r m now
    refine Bool.eq_false_iff.mpr (fun htrue => ?_)
    obtain ⟨c, hc, _, hstatus⟩ :=
      (state_iff ⟨[ActorState.running false r m now]⟩ .Running true).mp htrue
    rw [List.mem_singleton] at hc
    subst hc
    rw [pascal_true] at hstatus
    have hfc : (ActorState.running false r m now).status = "False" := by
      rw [show (ActorState.running false r m now).status
            = toCasePascal (ToString.toString false) from rfl, pascal_false]
    rw [hfc] at hstatus
    exact absurd hstatus (by decide)

/-- Witness for C4: a status holding one pending condition answers the
pending query positively. -/
theorem lifecycle_queries_correct_witness :
    ActorStatus.pending ⟨[ActorState.pending ⟨0⟩]⟩ = true :=
  (lifecycle_queries_correct ⟨[ActorState.pending ⟨0⟩]⟩).1.mpr
    ⟨ActorState.pending ⟨0⟩, by simp, rfl, by decide⟩

/-- C5: every condition constructor returns a fully-populated
condition: fixed phase name as type, status canonicalized to exactly
"True" or "False", reason Pascal-canonicalized, message defaulted to
the empty string when absent, observed_generation unset. -/
theorem condition_constructors_populate (status : Bool) (r : String)
    (m : Option String) (now : Time) :
    ((ActorState.pending now).type_ = "Pending" ∧
      (ActorState.pending now).status = "True" ∧
      (ActorState.pending now).reason = "Created" ∧
      (ActorState.pending now).message = "" ∧
      (ActorState.pending now).observed_generation = none) ∧
    ((ActorState.building now).type_ = "Building" ∧
      (ActorState.building now).status = "True" ∧
      (ActorState.building now).reason = "Build" ∧
      (ActorState.building now).message = "" ∧
      (ActorState.building now).observed_generation = none) ∧
    ((ActorState.running status r m now).type_ = "Running" ∧
      (ActorState.running status r m now).status
        = (if status then "True" else "False") ∧
      (ActorState.running status r m now).reason = toCasePascal r ∧
      (ActorState.running status r m now).message = m.getD "" ∧
      (ActorState.running status r m now).observed_generation = none ∧
      (ActorState.running status r m now).last_transition_time = now) ∧
    ((ActorState.failed status r m now).type_ = "Failed" ∧
      (ActorState.failed status r m now).status
        = (if status then "True" else "False") ∧
      (ActorState.failed status r m now).reason = toCasePascal r ∧
      (ActorState.failed status r m now).message = m.getD "" ∧
      (ActorState.failed status r m now).observed_generation = none ∧
      (ActorState.failed status r m now).last_transition_time = now) := by
  have hstat : ∀ b : Bool,
      toCasePascal (ToString.toString b) = (if b then "True" else "False") := by
    intro b
    cases b
    · exact pascal_false
    · exact pascal_true
  have hmsg : (match m with | some message => message | none => "") = m.getD "" := by
    cases m <;> rfl
  exact ⟨⟨rfl, pascal_true, pascal_created, rfl, rfl⟩,
    ⟨rfl, pascal_true, pascal_build, rfl, rfl⟩,
    ⟨rfl, hstat status, rfl, hmsg, rfl, rfl⟩,
    ⟨rfl, hstat status, rfl, hmsg, rfl, rfl⟩⟩

/-- C6 counterexample: two different (repository, reference, path)
triples whose locators coincide — when the reference is absent the
path is ignored, so the locator is the bare repository either way. -/
theorem url_not_injective_cex :
    url "repo" none (some "a") = url "repo" none none ∧
    ¬ (("repo", (none : Option String), (some "a" : Option String)) =
       ("repo", (none : Option String), (none : Option String))) :=
  ⟨rfl, by decide⟩

/-- Cancellation of a delimiter-joined concatenation: when neither
prefix contains the separator, equal joins have equal parts. -/
theorem append_sep_cancel {sep : Char} :
    ∀ {a c b d : List Char}, sep ∉ a → sep ∉ c →
      a ++ sep :: b = c ++ sep :: d → a = c ∧ b = d := by
  intro a
  induction a with
  | nil =>
    intro c b d _ hc h
    cases c with
    | nil => simpa using h
    | cons y ys =>
      rw [List.nil_append, List.cons_append, List.cons.injEq] at h
      exact absurd (h.1 ▸ List.mem_cons_self y ys) hc
  | cons x xs ih =>
    intro c b d ha hc h
    cases c with
    | nil =>
      rw [List.cons_append, List.nil_append, List.cons.injEq] at h
      exact absurd (h.1 ▸ List.mem_cons_self x xs) ha
    | cons y ys =>
      rw [List.cons_append, List.cons_append, List.cons.injEq] at h
      have ha2 : sep ∉ xs := fun hmem => ha (List.mem_cons_of_mem x hmem)
      have hc2 : sep ∉ ys := fun hmem => hc (List.mem_cons_of_mem y hmem)
      obtain ⟨heq1, heq2⟩ := ih ha2 hc2 h.2
      exact ⟨by rw [h.1, heq1], heq2⟩

/-- The character list underlying a locator with a present reference
and no path. -/
theorem url_data_ref (r ref : String) :
    (url r (some ref) none).data = r.data ++ '#' :: ref.data := by
  show ((r ++ "#") ++ ref).data = _
  simp [String.data_append]

/-- The character list underlying a locator with a present reference
and a present path. -/
theorem url_data_ref_path (r ref p : String) :
    (url r (some ref) (some p)).data
      = r.data ++ '#' :: (ref.data ++ ':' :: p.data) := by
  show ((((r ++ "#") ++ ref) ++ ":") ++ p).data = _
  simp [String.data_append]

/-- C6 amended: on triples whose reference is present, the locator
derivation is injective provided the repository contains no delimiter
character '#' and the reference contains no delimiter character ':'. -/
theorem url_injective_with_reference
    (r₁ r₂ ref₁ ref₂ : String) (p₁ p₂ : Option String)
    (h₁ : '#' ∉ r₁.data) (h₂ : '#' ∉ r₂.data)
    (h₃ : ':' ∉ ref₁.data) (h₄ : ':' ∉ ref₂.data)
    (heq : url r₁ (some ref₁) p₁ = url r₂ (some ref₂) p₂) :
    r₁ = r₂ ∧ ref₁ = ref₂ ∧ p₁ = p₂ := by
  have hd := congrArg String.data heq
  cases p₁ with
  | none =>
    cases p₂ with
    | none =>
      rw [url_data_ref, url_data_ref] at hd
      obtain ⟨hr, href⟩ := append_sep_cancel h₁ h₂ hd
      exact ⟨String.ext hr, String.ext href, rfl⟩
    | some q₂ =>
      rw [url_data_ref, url_data_ref_path] at hd
      obtain ⟨_, href⟩ := append_sep_cancel h₁ h₂ hd
      exact absurd (href ▸ List.mem_append_right ref₂.data
        (List.mem_cons_self ':' q₂.data)) h₃
  | some q₁ =>
    cases p₂ with
    | none =>
      rw [url_data_ref_path, url_data_ref] at hd
      obtain ⟨_, href⟩ := append_sep_cancel h₁ h₂ hd
      exact absurd (href ▸ List.mem_append_right ref₁.data
        (List.mem_cons_self ':' q₁.data)) h₄
    | some q₂ =>
      rw [url_data_ref_path, url_data_ref_path] at hd
      obtain ⟨hr, hrest⟩ := append_sep_cancel h₁ h₂ hd
      obtain ⟨href, hq⟩ := append_sep_cancel h₃ h₄ hrest
      exact ⟨String.ext hr, String.ext href,
        congrArg some (String.ext hq)⟩

/-- Witness for the amended C6 at concrete delimiter-free components. -/
theorem url_injective_with_reference_witness :
    ("a" : String) = "a" ∧ ("b" : String) = "b" ∧
    (some "c" : Option String) = some "c" :=
  url_injective_with_reference "a" "a" "b" "b" (some "c") (some "c")
    (by decide) (by decide) (by decide) (by decide) rfl

end Amphitheatre
